import Mathlib

/-!
Verification development for the speech-to-speech (S2S) session protocol of the
multi-modal chatbot frontend.  The definitions below are a shallow embedding of

  * `chatbot-react/src/components/helper/s2sEvents.js`  (event codec), and
  * `chatbot-react/src/components/helper/S2SManager.js` (session manager),

translated function by function.  The manager's mutable fields become a state
record; observable actions (socket sends, playback control, callbacks) become
an explicit effect log; JavaScript exceptions become `Except` errors.  Inbound
messages are modelled as parsed JSON values (`JVal`), since the handler is fed
`JSON.parse(message.data)` and its dynamic field accesses can throw.
-/

namespace S2S

/-- A JSON value, the result of `JSON.parse`.  Numbers keep their source
numeral text; no claim depends on numeric value. -/
inductive JVal where
  | jnull
  | jbool (b : Bool)
  | jnum (s : String)
  | jstr (s : String)
  | jarr (elems : List JVal)
  | jobj (fields : List (String × JVal))

/-- The left-brace character, written via its code point. -/
def lbrace : Char := Char.ofNat 123

/-- The right-brace character, written via its code point. -/
def rbrace : Char := Char.ofNat 125

def isJsonWs (c : Char) : Bool :=
  c = ' ' || c = '\t' || c = '\n' || c = '\r'

def skipWs : List Char → List Char
  | [] => []
  | c :: rest => if isJsonWs c then skipWs rest else c :: rest

def hexVal (c : Char) : Option Nat :=
  if '0' ≤ c ∧ c ≤ '9' then some (c.toNat - '0'.toNat)
  else if 'a' ≤ c ∧ c ≤ 'f' then some (c.toNat - 'a'.toNat + 10)
  else if 'A' ≤ c ∧ c ≤ 'F' then some (c.toNat - 'A'.toNat + 10)
  else none

/-- Body of a JSON string literal, after the opening quote.  Handles the
standard escapes.  `fuel` bounds recursion (a fresh call never needs more than
`input length + 1`). -/
def parseStringBody : Nat → List Char → List Char → Option (String × List Char)
  | 0, _, _ => none
  | _ + 1, [], _ => none
  | fuel + 1, c :: rest, acc =>
    if c = '"' then some (String.mk acc.reverse, rest)
    else if c = '\\' then
      match rest with
      | [] => none
      | e :: rest2 =>
        if e = '"' then parseStringBody fuel rest2 ('"' :: acc)
        else if e = '\\' then parseStringBody fuel rest2 ('\\' :: acc)
        else if e = '/' then parseStringBody fuel rest2 ('/' :: acc)
        else if e = 'n' then parseStringBody fuel rest2 ('\n' :: acc)
        else if e = 't' then parseStringBody fuel rest2 ('\t' :: acc)
        else if e = 'r' then parseStringBody fuel rest2 ('\r' :: acc)
        else if e = 'b' then parseStringBody fuel rest2 ('\x08' :: acc)
        else if e = 'f' then parseStringBody fuel rest2 ('\x0c' :: acc)
        else if e = 'u' then
          match rest2 with
          | a :: b :: c2 :: d :: rest3 =>
            match hexVal a, hexVal b, hexVal c2, hexVal d with
            | some ha, some hb, some hc, some hd =>
              parseStringBody fuel rest3
                (Char.ofNat (((ha * 16 + hb) * 16 + hc) * 16 + hd) :: acc)
            | _, _, _, _ => none
          | _ => none
        else none
    else parseStringBody fuel rest (c :: acc)

def takeDigits : List Char → List Char × List Char
  | [] => ([], [])
  | c :: rest =>
    if c.isDigit then
      let (ds, r) := takeDigits rest
      (c :: ds, r)
    else ([], c :: rest)

def parseFrac : List Char → Option (List Char × List Char)
  | '.' :: r =>
    let (ds, r2) := takeDigits r
    if ds.isEmpty then none else some ('.' :: ds, r2)
  | cs => some ([], cs)

def parseExp : List Char → Option (List Char × List Char)
  | [] => some ([], [])
  | c :: r =>
    if c = 'e' ∨ c = 'E' then
      let (sgn, r2) :=
        match r with
        | [] => (([] : List Char), ([] : List Char))
        | s :: r3 => if s = '+' ∨ s = '-' then ([s], r3) else ([], s :: r3)
      let (ds, r4) := takeDigits r2
      if ds.isEmpty then none else some (c :: (sgn ++ ds), r4)
    else some ([], c :: r)

/-- A JSON numeral: optional minus, integer part, optional fraction and
exponent; returns the numeral text. -/
def parseNumber (cs : List Char) : Option (String × List Char) :=
  let (neg, cs1) :=
    match cs with
    | '-' :: r => (['-'], r)
    | _ => (([] : List Char), cs)
  let (intPart, cs2) := takeDigits cs1
  if intPart.isEmpty then none
  else
    match parseFrac cs2 with
    | none => none
    | some (fracPart, cs3) =>
      match parseExp cs3 with
      | none => none
      | some (expPart, cs4) =>
        some (String.mk (neg ++ intPart ++ fracPart ++ expPart), cs4)

def stripPrefixChars : List Char → List Char → Option (List Char)
  | [], cs => some cs
  | _ :: _, [] => none
  | p :: ps, c :: cs => if c = p then stripPrefixChars ps cs else none

/-- Insert a field as `JSON.parse` does with duplicate keys: the later value
wins, at the first occurrence's position. -/
def fieldsInsert (fields : List (String × JVal)) (k : String) (v : JVal) :
    List (String × JVal) :=
  if fields.any (fun kv => kv.1 == k) then
    fields.map (fun kv => if kv.1 == k then (k, v) else kv)
  else fields ++ [(k, v)]

mutual

def parseVal : Nat → List Char → Option (JVal × List Char)
  | 0, _ => none
  | fuel + 1, cs =>
    match skipWs cs with
    | [] => none
    | c :: rest =>
      if c = '"' then
        match parseStringBody (rest.length + 1) rest [] with
        | some (s, r) => some (.jstr s, r)
        | none => none
      else if c = lbrace then parseFieldsStart fuel rest
      else if c = '[' then parseElemsStart fuel rest
      else if c = 't' then
        match stripPrefixChars ['r', 'u', 'e'] rest with
        | some r => some (.jbool true, r)
        | none => none
      else if c = 'f' then
        match stripPrefixChars ['a', 'l', 's', 'e'] rest with
        | some r => some (.jbool false, r)
        | none => none
      else if c = 'n' then
        match stripPrefixChars ['u', 'l', 'l'] rest with
        | some r => some (.jnull, r)
        | none => none
      else
        match parseNumber (c :: rest) with
        | some (s, r) => some (.jnum s, r)
        | none => none

def parseFieldsStart : Nat → List Char → Option (JVal × List Char)
  | 0, _ => none
  | fuel + 1, cs =>
    match skipWs cs with
    | [] => none
    | c :: rest =>
      if c = rbrace then some (.jobj [], rest)
      else parseFields fuel (c :: rest) []

def parseFields : Nat → List Char → List (String × JVal) →
    Option (JVal × List Char)
  | 0, _, _ => none
  | fuel + 1, cs, acc =>
    match skipWs cs with
    | '"' :: rest =>
      match parseStringBody (rest.length + 1) rest [] with
      | some (k, r1) =>
        match skipWs r1 with
        | ':' :: r2 =>
          match parseVal fuel r2 with
          | some (v, r3) =>
            match skipWs r3 with
            | ',' :: r4 => parseFields fuel r4 (fieldsInsert acc k v)
            | c :: r4 =>
              if c = rbrace then some (.jobj (fieldsInsert acc k v), r4)
              else none
            | [] => none
          | none => none
        | _ => none
      | none => none
    | _ => none

def parseElemsStart : Nat → List Char → Option (JVal × List Char)
  | 0, _ => none
  | fuel + 1, cs =>
    match skipWs cs with
    | [] => none
    | c :: rest =>
      if c = ']' then some (.jarr [], rest)
      else parseElems fuel (c :: rest) []

def parseElems : Nat → List Char → List JVal → Option (JVal × List Char)
  | 0, _, _ => none
  | fuel + 1, cs, acc =>
    match parseVal fuel cs with
    | some (v, r1) =>
      match skipWs r1 with
      | ',' :: r2 => parseElems fuel r2 (acc ++ [v])
      | ']' :: r2 => some (.jarr (acc ++ [v]), r2)
      | _ => none
    | none => none

end

/-- `JSON.parse`: parse a complete JSON document (trailing whitespace only).
The fuel is generous; each recursive step consumes input. -/
def jsonParse (s : String) : Option JVal :=
  match parseVal (2 * s.length + 2) s.toList with
  | some (v, rest) => if (skipWs rest).isEmpty then some v else none
  | none => none

/-- A JavaScript exception escaping the handler. -/
inductive JsError where
  | typeError (msg : String)
  | syntaxError (msg : String)
deriving DecidableEq

/-- Field lookup in a parsed object.  Objects built by `jsonParse` have unique
keys (`fieldsInsert`), so first match suffices. -/
def jfieldGet : List (String × JVal) → String → Option JVal
  | [], _ => none
  | (k, v) :: rest, key => if k == key then some v else jfieldGet rest key

/-- JavaScript property read `v.k` on a defined value, with `none` standing
for `undefined`.  Numeric index and `length` properties of strings/arrays are
not modelled (no code path under verification reads them). -/
def jsMember (v : JVal) (k : String) : Option JVal :=
  match v with
  | .jobj fields => jfieldGet fields k
  | _ => none

/-- `Object.keys(x)` where `x` may be `undefined`: throws on
undefined/null, enumerates index keys of strings and arrays. -/
def jsKeys : Option JVal → Except JsError (List String)
  | none => .error (.typeError "Cannot convert undefined to object")
  | some .jnull => .error (.typeError "Cannot convert null to object")
  | some (.jobj fields) => .ok (fields.map Prod.fst)
  | some (.jstr s) => .ok ((List.range s.length).map toString)
  | some (.jarr xs) => .ok ((List.range xs.length).map toString)
  | some _ => .ok []

/-- JavaScript property read `base[k]` where `base` itself may be undefined:
throws on undefined/null base. -/
def jsGetProp (base : Option JVal) (k : String) : Except JsError (Option JVal) :=
  match base with
  | none => .error (.typeError ("Cannot read properties of undefined (reading " ++ k ++ ")"))
  | some .jnull => .error (.typeError ("Cannot read properties of null (reading " ++ k ++ ")"))
  | some v => .ok (jsMember v k)

/-- Non-throwing indexed read `base[k]` with a possibly-undefined string key
(JS coerces an `undefined` key to the string "undefined"). -/
def jsIndexOpt (base : Option JVal) (k : Option String) : Option JVal :=
  match base with
  | some v => jsMember v (k.getD "undefined")
  | none => none

mutual

/-- JavaScript `String(v)` coercion of a defined value.  Array element
stringification follows `Array.prototype.toString` (null elements print
empty, elements joined by commas). -/
def jValToStr : JVal → String
  | .jnull => "null"
  | .jbool b => cond b "true" "false"
  | .jnum s => s
  | .jstr s => s
  | .jarr xs => jArrToStr xs
  | .jobj _ => "[object Object]"

def jArrToStr : List JVal → String
  | [] => ""
  | [JVal.jnull] => ""
  | [x] => jValToStr x
  | JVal.jnull :: y :: rest => "," ++ jArrToStr (y :: rest)
  | x :: y :: rest => jValToStr x ++ "," ++ jArrToStr (y :: rest)

end

/-- `String(v)` where `v` may be `undefined` — the coercion applied by JS to
property keys and to operands of `+` with a string. -/
def jsToStr : Option JVal → String
  | none => "undefined"
  | some v => jValToStr v

/-- Whether a JSON numeral denotes zero — a JSON numeral is zero exactly when
it contains no digit 1–9. -/
def isZeroNumStr (s : String) : Bool :=
  s.toList.all (fun c => c = '0' || c = '-' || c = '+' || c = '.' || c = 'e' || c = 'E')

/-- JavaScript truthiness of a possibly-undefined value. -/
def jsTruthy : Option JVal → Bool
  | none => false
  | some .jnull => false
  | some (.jbool b) => b
  | some (.jnum s) => !isZeroNumStr s
  | some (.jstr s) => !s.isEmpty
  | some (.jarr _) => true
  | some (.jobj _) => true

/-- Strict equality `v === "s"` with a string literal. -/
def isStrVal (v : Option JVal) (s : String) : Bool :=
  match v with
  | some (.jstr t) => t == s
  | _ => false

/-- Strict equality `v === true`. -/
def isTrueVal (v : Option JVal) : Bool :=
  match v with
  | some (.jbool b) => b
  | _ => false

/-- Truthiness of the manager's nullable string fields (`this.promptName &&
this.audioContentName`): present and non-empty. -/
def strTruthy : Option String → Bool
  | none => false
  | some s => !s.isEmpty

/-- JavaScript `s.startsWith(p)`. -/
def strStartsWith (s p : String) : Bool :=
  p.data.isPrefixOf s.data

/-- JavaScript `s.substring(0, n)`: the first `n` characters (all of `s` when
it is shorter). -/
def strTake (s : String) (n : Nat) : String :=
  String.mk (s.data.take n)

/-- Lookup in a string-keyed JS object used as a map
(`audioResponse`, `chatMessages`). -/
def alGet {α : Type} : List (String × α) → String → Option α
  | [], _ => none
  | (k, v) :: rest, key => if k == key then some v else alGet rest key

/-- Property write on a string-keyed JS object: update in place, or append a
new key (JS preserves insertion order). -/
def alSet {α : Type} : List (String × α) → String → α → List (String × α)
  | [], key, v => [(key, v)]
  | (k, w) :: rest, key, v =>
    if k == key then (k, v) :: rest else (k, w) :: alSet rest key v

/-! ## Event codec (`s2sEvents.js`)

Outbound frames.  The configuration payloads carried by `sessionStart` and
`promptStart` (inference/audio/tool configuration) do not distinguish frames
for any claim and are elided; the type/role/interactive markers baked into
each constructor are kept. -/

inductive Frame where
  | sessionStart
  | promptStart (promptName : String)
  | contentStart (promptName contentName ty : String) (role : Option String) (interactive : Bool)
  | textInput (promptName contentName content : String) (role : Option String)
  | audioInput (promptName contentName content : String)
  | contentEnd (promptName contentName : String)
  | promptEnd (promptName : String)
  | sessionEnd
deriving DecidableEq

namespace S2sEvent

def sessionStart : Frame := .sessionStart

def promptStart (promptName : String) : Frame := .promptStart promptName

/-- `contentStartText`: type TEXT, interactive, role SYSTEM (hard-coded in the
codec, also for chat-history blocks). -/
def contentStartText (promptName contentName : String) : Frame :=
  .contentStart promptName contentName "TEXT" (some "SYSTEM") true

/-- `textInput`: the `role` property is attached only when a role argument is
passed (the chat-history path passes one; the system-prompt path does not). -/
def textInput (promptName contentName content : String) (role : Option String) : Frame :=
  .textInput promptName contentName content role

def contentEnd (promptName contentName : String) : Frame :=
  .contentEnd promptName contentName

/-- `contentStartAudio`: type AUDIO, interactive, role USER. -/
def contentStartAudio (promptName contentName : String) : Frame :=
  .contentStart promptName contentName "AUDIO" (some "USER") true

def audioInput (promptName contentName content : String) : Frame :=
  .audioInput promptName contentName content

def promptEnd (promptName : String) : Frame := .promptEnd promptName

def sessionEnd : Frame := .sessionEnd

end S2sEvent

/-! ## Session manager state (`S2SManager.js`) -/

/-- Modelled from the spec: `base64LPCM` (in `audioHelper.js`, whose source is
not under src/) decodes an accumulated base64 LPCM buffer into one playable
unit (a blob URL).  Modelled as a wrapper retaining the buffer it was built
from; `none` is a JS `undefined` argument. -/
structure AudioUrl where
  buffer : Option String
deriving DecidableEq

def base64LPCM (buffer : Option String) : AudioUrl := ⟨buffer⟩

/-- One entry of `this.chatMessages` (transcript accumulator).  `raw` is the
list of raw messages pushed for this content id.  The handler's
`raw === undefined` re-initialisation checks are dead code (entries are only
created with `raw: []`), so `raw` is always a list here.  An entry whose
`stopReason` was assigned the JS value `undefined` is conflated with one whose
`stopReason` was never assigned (indistinguishable to all modelled code). -/
structure ChatMessage where
  content : Option JVal
  role : Option JVal
  generationStage : Option JVal
  stopReason : Option JVal
  raw : List JVal

structure ChatTurn where
  content : String
  role : String

/-- The manager configuration fields the modelled operations read. -/
structure S2SConfig where
  systemPrompt : String
  includeChatHistory : Bool
  chatHistory : List ChatTurn

/-- Mutable fields of `S2SManager`.  `socket = none` models `this.socket ===
null`; `socket = some b` a socket object with `b = (readyState === OPEN)`.
`mediaRecorder`, `audioPlayerRef` and the `window.audioCleanup` hook are
modelled by presence booleans. -/
structure S2SState where
  sessionStarted : Bool
  socket : Option Bool
  mediaRecorder : Bool
  audioPlayerRef : Bool
  audioCleanupSet : Bool
  audioQueue : List AudioUrl
  isPlaying : Bool
  audioPlayPromise : Bool
  audioChunks : List String
  audioInputIndex : Nat
  audioResponse : List (String × String)
  chatMessages : List (String × ChatMessage)
  promptName : Option String
  textContentName : Option String
  audioContentName : Option String
  sentResponses : List String

/-- The constructor's initial state. -/
def initialState : S2SState where
  sessionStarted := false
  socket := none
  mediaRecorder := false
  audioPlayerRef := false
  audioCleanupSet := false
  audioQueue := []
  isPlaying := false
  audioPlayPromise := false
  audioChunks := []
  audioInputIndex := 0
  audioResponse := []
  chatMessages := []
  promptName := none
  textContentName := none
  audioContentName := none
  sentResponses := []

/-- Observable actions of the manager, in program order: socket sends,
playback-element control, resource teardown, and configured callbacks. -/
inductive Effect where
  | frameSent (f : Frame)
  | pausePlayback
  | resetPlaybackPosition
  | startPlayback (u : AudioUrl)
  | audioEnqueued (u : AudioUrl)
  | mediaRecorderStop
  | socketClose
  | audioCleanup
  | onTranscription (v : Option JVal)
  | onUserMessage (v : Option JVal)
  | onResponse (v : Option JVal)
  | onError (msg : String)
  | onStateChange (b : Bool)

/-- `sendEvent`: sends only when the socket exists and is OPEN; otherwise a
silent no-op.  (The manager state itself is unchanged by a send.) -/
def sendEventFx (st : S2SState) (f : Frame) : List Effect :=
  if st.socket = some true then [.frameSent f] else []

/-- `cancelAudio`: pause the element, reset its position and null the play
promise only when a player ref and a live play promise exist; in every case
empty the queue and clear `isPlaying`. -/
def cancelAudio (st : S2SState) : S2SState × List Effect :=
  if st.audioPlayerRef && st.audioPlayPromise then
    ({ st with audioPlayPromise := false, audioQueue := [], isPlaying := false },
     [Effect.pausePlayback, Effect.resetPlaybackPosition])
  else ({ st with audioQueue := [], isPlaying := false }, [])

/-- `playNext`: if idle and the queue is non-empty (and a player ref exists),
shift the head off the queue and start playing it. -/
def playNext (st : S2SState) : S2SState × List Effect :=
  if st.isPlaying || st.audioQueue.isEmpty then (st, [])
  else if st.audioPlayerRef then
    match st.audioQueue with
    | [] => (st, [])
    | u :: rest =>
      ({ st with audioQueue := rest, isPlaying := true, audioPlayPromise := true },
       [Effect.startPlayback u])
  else (st, [])

/-- `audioEnqueue`: push onto the queue, then start playback if idle.  The
`audioEnqueued` effect logs the push. -/
def audioEnqueue (st : S2SState) (u : AudioUrl) : S2SState × List Effect :=
  let st1 := { st with audioQueue := st.audioQueue ++ [u] }
  if !st1.isPlaying then
    ((playNext st1).1, Effect.audioEnqueued u :: (playNext st1).2)
  else (st1, [Effect.audioEnqueued u])

/-- The `socket.onopen` handler: assign fresh identifiers (passed in for
`crypto.randomUUID()`), then send the setup sequence.  `histCn` is the UUID
generated for the optional chat-history block. -/
def socketOnOpen (cfg : S2SConfig) (pn tcn acn histCn : String) (st : S2SState) :
    S2SState × List Effect :=
  let st0 := { st with
    promptName := some pn, textContentName := some tcn, audioContentName := some acn }
  let setup :=
    sendEventFx st0 S2sEvent.sessionStart
    ++ sendEventFx st0 (S2sEvent.promptStart pn)
    ++ sendEventFx st0 (S2sEvent.contentStartText pn tcn)
    ++ sendEventFx st0 (S2sEvent.textInput pn tcn cfg.systemPrompt none)
    ++ sendEventFx st0 (S2sEvent.contentEnd pn tcn)
  let hist :=
    if cfg.includeChatHistory then
      sendEventFx st0 (S2sEvent.contentStartText pn histCn)
      ++ cfg.chatHistory.foldl
          (fun acc chat =>
            acc ++ sendEventFx st0 (S2sEvent.textInput pn histCn chat.content (some chat.role)))
          []
      ++ sendEventFx st0 (S2sEvent.contentEnd pn histCn)
    else []
  (st0, setup ++ hist ++ sendEventFx st0 (S2sEvent.contentStartAudio pn acn))

/-- The `socket.onclose` handler: code 1008 reports an authentication
failure; any other code reports a generic disconnect only while
`sessionStarted`. -/
def socketOnClose (st : S2SState) (code : Nat) : List Effect :=
  if code = 1008 then
    [Effect.onError "Authentication failed. Please sign in again."]
  else if st.sessionStarted then
    [Effect.onError "WebSocket Disconnected"]
  else []

/-- The `socket.onerror` handler. -/
def socketOnError (errText : String) : List Effect :=
  [Effect.onError ("WebSocket Error: " ++ errText)]

/-- The state reset performed at the top of `startSession()`. -/
def startSessionReset (st : S2SState) : S2SState :=
  { st with
    chatMessages := [], audioResponse := [], audioChunks := [],
    audioInputIndex := 0, audioQueue := [], sentResponses := [] }

/-- `endSession()`: a no-op when the socket is null; otherwise stop the
recorder (if recording), send `contentEnd(audio)`, `promptEnd`, `sessionEnd`
(only when prompt and audio-content identifiers are set, and each send is
still guarded by the socket-OPEN check), close and null the socket, run the
global audio cleanup hook, clear `sessionStarted`, and report the state
change. -/
def endSession (st : S2SState) : S2SState × List Effect :=
  match st.socket with
  | none => (st, [])
  | some _ =>
    let mrFx := if st.mediaRecorder && st.sessionStarted then [Effect.mediaRecorderStop] else []
    let sendFx :=
      if strTruthy st.promptName && strTruthy st.audioContentName then
        sendEventFx st (S2sEvent.contentEnd (st.promptName.getD "") (st.audioContentName.getD ""))
        ++ sendEventFx st (S2sEvent.promptEnd (st.promptName.getD ""))
        ++ sendEventFx st S2sEvent.sessionEnd
      else []
    let acFx := if st.audioCleanupSet then [Effect.audioCleanup] else []
    ({ st with socket := none, sessionStarted := false },
     mrFx ++ sendFx ++ [Effect.socketClose] ++ acFx ++ [Effect.onStateChange false])

/-- The `textOutput` update of `this.chatMessages[contentId]`: only when the
entry exists; overwrite `content` and `role`, push the raw message. -/
def chatMessagesTextUpdate (st : S2SState) (key : String)
    (content role : Option JVal) (message : JVal) : S2SState :=
  match alGet st.chatMessages key with
  | none => st
  | some cm =>
    let cm2 := { cm with content := content, role := role, raw := cm.raw ++ [message] }
    { st with chatMessages := alSet st.chatMessages key cm2 }

/-- `handleIncomingMessage`, on the already-parsed message value.  Errors are
the JavaScript exceptions the original can raise (there is no try/catch on
this path): `Object.keys(message?.event)` on a message without an event
object, property reads on a null/undefined event payload,
`content.startsWith` on a non-string ASSISTANT content, and `JSON.parse` of
invalid JSON (barge-in probe and `additionalModelFields`). -/
def handleIncomingMessage (st : S2SState) (message : JVal) :
    Except JsError (S2SState × List Effect) := do
  let evOpt : Option JVal := jsMember message "event"
  let eventKeys ← jsKeys evOpt
  let eventType : Option String := eventKeys.head?
  let body : Option JVal := jsIndexOpt evOpt eventType
  let role ← jsGetProp body "role"
  let content ← jsGetProp body "content"
  let contentId ← jsGetProp body "contentId"
  let stopReason ← jsGetProp body "stopReason"
  let contentType ← jsGetProp body "type"
  match eventType with
  | some "textOutput" =>
    if isStrVal role "ASSISTANT" then
      match content with
      | some (JVal.jstr c) => do
        -- Barge-in detection: JSON-probe contents that start with a brace.
        let cancelRes : S2SState × List Effect ←
          if strStartsWith c "\x7b" then
            match jsonParse c with
            | none => Except.error (JsError.syntaxError "Unexpected token in JSON at position 1")
            | some evt =>
              if isTrueVal (jsMember evt "interrupted") then pure (cancelAudio st)
              else pure (st, ([] : List Effect))
          else pure (st, ([] : List Effect))
        let stA := cancelRes.1
        let fxA := cancelRes.2
        let stB := chatMessagesTextUpdate stA (jsToStr contentId) content role message
        let responseKey := strTake c 50
        if stB.sentResponses.contains responseKey then pure (stB, fxA)
        else
          pure ({ stB with sentResponses := responseKey :: stB.sentResponses },
                fxA ++ [Effect.onResponse content])
      | _ =>
        -- `content.startsWith` throws when content is not a string
        -- (`content.substring` below would throw likewise).
        Except.error (JsError.typeError "content.startsWith is not a function")
    else
      let stB := chatMessagesTextUpdate st (jsToStr contentId) content role message
      if isStrVal role "USER" then
        pure (stB, [Effect.onTranscription content, Effect.onUserMessage content])
      else pure (stB, [])
  | some "audioOutput" =>
    let key := jsToStr contentId
    let prev := (alGet st.audioResponse key).getD ""
    pure ({ st with audioResponse := alSet st.audioResponse key (prev ++ jsToStr content) }, [])
  | some "contentStart" =>
    if isStrVal contentType "AUDIO" then
      pure ({ st with audioResponse := alSet st.audioResponse (jsToStr contentId) "" }, [])
    else if isStrVal contentType "TEXT" then do
      let amf ← jsGetProp (jsIndexOpt evOpt (some "contentStart")) "additionalModelFields"
      let generationStage : Option JVal ←
        if jsTruthy amf then
          match jsonParse (jsToStr amf) with
          | none => Except.error (JsError.syntaxError "Unexpected token in JSON")
          | some parsed => pure (jsMember parsed "generationStage")
        else pure (some (JVal.jstr ""))
      let entry : ChatMessage :=
        { content := some (JVal.jstr ""), role := role,
          generationStage := generationStage, stopReason := none,
          raw := [message] }
      pure ({ st with chatMessages := alSet st.chatMessages (jsToStr contentId) entry }, [])
    else pure (st, [])
  | some "contentEnd" =>
    if isStrVal contentType "AUDIO" then
      pure (audioEnqueue st (base64LPCM (alGet st.audioResponse (jsToStr contentId))))
    else if isStrVal contentType "TEXT" then
      match alGet st.chatMessages (jsToStr contentId) with
      | none => pure (st, [])
      | some cm =>
        let cm2 := { cm with raw := cm.raw ++ [message], stopReason := stopReason }
        pure ({ st with chatMessages := alSet st.chatMessages (jsToStr contentId) cm2 }, [])
    else pure (st, [])
  | _ => pure (st, [])

/-- The `socket.onmessage` handler: `JSON.parse(message.data)` (which throws
on non-JSON data) followed by `handleIncomingMessage`. -/
def socketOnMessage (st : S2SState) (raw : String) :
    Except JsError (S2SState × List Effect) :=
  match jsonParse raw with
  | none => Except.error (JsError.syntaxError "Unexpected token in message data")
  | some v => handleIncomingMessage st v

/-- Sequential processing of inbound (already-parsed) messages, used to state
multi-frame properties over exception-free runs (every claim that uses it
proves an `.ok` result).  The `.error` branch only records that a frame's
handler raised; it does not model cross-message behaviour — in the browser
each `onmessage` dispatch is an independent task, so an uncaught exception in
one handler does not prevent later messages from being processed. -/
def processMessages (st : S2SState) (msgs : List JVal) :
    Except JsError (S2SState × List Effect) :=
  match msgs with
  | [] => .ok (st, [])
  | m :: rest =>
    match handleIncomingMessage st m with
    | .error e => .error e
    | .ok (st1, e1) =>
      match processMessages st1 rest with
      | .error e => .error e
      | .ok (st2, e2) => .ok (st2, e1 ++ e2)

/-! ## Inbound message builders (well-formed wire frames, used in claims) -/

def optField (k : String) (v : Option JVal) : List (String × JVal) :=
  match v with
  | some x => [(k, x)]
  | none => []

/-- A `textOutput` frame with optional role/content/contentId/stopReason
fields. -/
def textOutputMsg (role content contentId stopReason : Option JVal) : JVal :=
  .jobj [("event", .jobj [("textOutput", .jobj
    (optField "role" role ++ optField "content" content ++
     optField "contentId" contentId ++ optField "stopReason" stopReason))])]

/-- An ASSISTANT `textOutput` frame with string content and contentId. -/
def assistantTextMsg (content contentId : String) : JVal :=
  textOutputMsg (some (.jstr "ASSISTANT")) (some (.jstr content)) (some (.jstr contentId)) none

/-- A `contentStart` frame of type AUDIO. -/
def contentStartAudioMsg (contentId : String) : JVal :=
  .jobj [("event", .jobj [("contentStart", .jobj
    [("contentId", .jstr contentId), ("type", .jstr "AUDIO")])])]

/-- An `audioOutput` frame carrying one base64 chunk. -/
def audioOutputMsg (contentId chunk : String) : JVal :=
  .jobj [("event", .jobj [("audioOutput", .jobj
    [("contentId", .jstr contentId), ("content", .jstr chunk)])])]

/-- A `contentEnd` frame of type AUDIO. -/
def contentEndAudioMsg (contentId : String) : JVal :=
  .jobj [("event", .jobj [("contentEnd", .jobj
    [("contentId", .jstr contentId), ("type", .jstr "AUDIO")])])]

/-- The full inbound sequence of one streamed audio block. -/
def audioBlockMsgs (contentId : String) (chunks : List String) : List JVal :=
  contentStartAudioMsg contentId :: (chunks.map (audioOutputMsg contentId)
    ++ [contentEndAudioMsg contentId])

/-- Concatenation of chunks in arrival order. -/
def concatAll : List String → String
  | [] => ""
  | c :: rest => c ++ concatAll rest

/-- The queue-push entries of an effect log. -/
def enqueuedUnit : Effect → Option AudioUrl
  | .audioEnqueued u => some u
  | _ => none

/-- Effects that touch the playback pipeline (element control or queue). -/
def playbackEffect : Effect → Bool
  | .pausePlayback => true
  | .resetPlaybackPosition => true
  | .startPlayback _ => true
  | .audioEnqueued _ => true
  | _ => false

/-- The effect log of a run, when no exception was raised. -/
def runEffects (st : S2SState) (msgs : List JVal) : Option (List Effect) :=
  (processMessages st msgs).toOption.map Prod.snd

/-! ## Concrete fixture states and inputs -/

/-- A state whose socket is connected and OPEN. -/
def openState : S2SState := { initialState with socket := some true }

/-- A concrete configuration requesting a two-turn chat history. -/
def historyConfig : S2SConfig := { systemPrompt := "sys", includeChatHistory := true, chatHistory := [{ content := "hi", role := "USER" }, { content := "hello", role := "ASSISTANT" }] }

/-- A concrete fully-active session state (open socket, started, recorder and
cleanup hook present, identifiers assigned). -/
def activeState : S2SState := { initialState with socket := some true, sessionStarted := true, mediaRecorder := true, audioCleanupSet := true, promptName := some "p", audioContentName := some "a" }

/-- A state in mid-playback: player ref and play promise live, a unit
playing, two more queued. -/
def bargeState : S2SState := { initialState with audioPlayerRef := true, audioPlayPromise := true, isPlaying := true, audioQueue := [⟨some "A"⟩, ⟨some "B"⟩] }

/-- The barge-in marker text emitted by the backend. -/
def interruptedMarker : String := "\x7b\"interrupted\": true\x7d"

/-! ## Map and state lemmas -/

theorem jsMember_obj (fields : List (String × JVal)) (k : String) :
    jsMember (.jobj fields) k = jfieldGet fields k := rfl

theorem alGet_set_self {α : Type} (m : List (String × α)) (k : String) (v : α) :
    alGet (alSet m k v) k = some v := by
  induction m with
  | nil => simp [alGet, alSet]
  | cons kv rest ih =>
    obtain ⟨k2, w⟩ := kv
    by_cases h : k2 = k <;> simp [alGet, alSet, h, ih]

theorem alGet_set_ne {α : Type} (m : List (String × α)) (k k2 : String) (v : α)
    (h : k ≠ k2) : alGet (alSet m k v) k2 = alGet m k2 := by
  induction m with
  | nil => simp [alGet, alSet, h]
  | cons kv rest ih =>
    obtain ⟨k3, w⟩ := kv
    by_cases h3 : k3 = k
    · subst h3; simp [alGet, alSet, h]
    · simp [alGet, alSet, h3, ih]

theorem alSet_set {α : Type} (m : List (String × α)) (k : String) (v w : α) :
    alSet (alSet m k v) k w = alSet m k w := by
  induction m with
  | nil => simp [alSet]
  | cons kv rest ih =>
    obtain ⟨k2, u⟩ := kv
    by_cases h : k2 = k <;> simp [alSet, h, ih]

theorem alSet_self_of_get {α : Type} (m : List (String × α)) (k : String) (v : α)
    (h : alGet m k = some v) : alSet m k v = m := by
  induction m with
  | nil => simp [alGet] at h
  | cons kv rest ih =>
    obtain ⟨k2, w⟩ := kv
    by_cases h2 : k2 = k
    · subst h2
      simp [alGet] at h
      simp [alSet, h]
    · simp [alGet, h2] at h
      simp [alSet, h2, ih h]

theorem chatUpd_audioQueue (st : S2SState) (k : String) (c r : Option JVal) (m : JVal) :
    (chatMessagesTextUpdate st k c r m).audioQueue = st.audioQueue := by
  unfold chatMessagesTextUpdate; split <;> rfl

theorem chatUpd_isPlaying (st : S2SState) (k : String) (c r : Option JVal) (m : JVal) :
    (chatMessagesTextUpdate st k c r m).isPlaying = st.isPlaying := by
  unfold chatMessagesTextUpdate; split <;> rfl

theorem chatUpd_sentResponses (st : S2SState) (k : String) (c r : Option JVal) (m : JVal) :
    (chatMessagesTextUpdate st k c r m).sentResponses = st.sentResponses := by
  unfold chatMessagesTextUpdate; split <;> rfl

theorem chatUpd_audioResponse (st : S2SState) (k : String) (c r : Option JVal) (m : JVal) :
    (chatMessagesTextUpdate st k c r m).audioResponse = st.audioResponse := by
  unfold chatMessagesTextUpdate; split <;> rfl

theorem cancelAudio_queue (st : S2SState) : (cancelAudio st).1.audioQueue = [] := by
  unfold cancelAudio
  split
  · rfl
  · rfl

theorem cancelAudio_isPlaying (st : S2SState) : (cancelAudio st).1.isPlaying = false := by
  unfold cancelAudio
  split
  · rfl
  · rfl

theorem cancelAudio_sentResponses (st : S2SState) :
    (cancelAudio st).1.sentResponses = st.sentResponses := by
  unfold cancelAudio
  split
  · rfl
  · rfl

theorem cancelAudio_fx (st : S2SState) :
    (cancelAudio st).2 = (if st.audioPlayerRef && st.audioPlayPromise
      then [Effect.pausePlayback, Effect.resetPlaybackPosition] else []) := by
  unfold cancelAudio
  by_cases h : st.audioPlayerRef = true ∧ st.audioPlayPromise = true <;> simp [h]

theorem playNext_no_enqueue (st : S2SState) :
    (playNext st).2.filterMap enqueuedUnit = [] := by
  unfold playNext
  split
  · rfl
  · split
    · split <;> simp [enqueuedUnit]
    · rfl

theorem playNext_audioResponse (st : S2SState) :
    (playNext st).1.audioResponse = st.audioResponse := by
  unfold playNext
  split
  · rfl
  · split
    · split <;> rfl
    · rfl

theorem audioEnqueue_enq_log (st : S2SState) (u : AudioUrl) :
    (audioEnqueue st u).2.filterMap enqueuedUnit = [u] := by
  cases hp : st.isPlaying <;>
    simp [audioEnqueue, hp, enqueuedUnit, playNext_no_enqueue]

theorem audioEnqueue_audioResponse (st : S2SState) (u : AudioUrl) :
    (audioEnqueue st u).1.audioResponse = st.audioResponse := by
  cases hp : st.isPlaying <;>
    simp [audioEnqueue, hp, playNext_audioResponse]

theorem processMessages_append (st st1 st2 : S2SState) (xs ys : List JVal)
    (e1 e2 : List Effect)
    (hx : processMessages st xs = .ok (st1, e1))
    (hy : processMessages st1 ys = .ok (st2, e2)) :
    processMessages st (xs ++ ys) = .ok (st2, e1 ++ e2) := by
  induction xs generalizing st e1 with
  | nil =>
    simp [processMessages] at hx
    obtain ⟨h1, h2⟩ := hx
    subst h1; subst h2
    simpa using hy
  | cons m rest ih =>
    rw [List.cons_append]
    simp only [processMessages] at hx ⊢
    cases hm : handleIncomingMessage st m with
    | error e => simp [hm] at hx
    | ok p =>
      obtain ⟨sta, ea⟩ := p
      simp only [hm] at hx ⊢
      cases hr : processMessages sta rest with
      | error e => simp [hr] at hx
      | ok q =>
        obtain ⟨stb, eb⟩ := q
        simp only [hr, Except.ok.injEq, Prod.mk.injEq] at hx
        obtain ⟨hb1, hb2⟩ := hx
        subst hb1; subst hb2
        rw [ih sta eb hr]
        simp [List.append_assoc]

theorem endSession_noop (st : S2SState) (h : st.socket = none) :
    endSession st = (st, []) := by
  simp [endSession, h]

theorem foldl_sendEventFx (st : S2SState) (hopen : st.socket = some true)
    (f : ChatTurn → Frame) (l : List ChatTurn) (acc : List Effect) :
    l.foldl (fun a chat => a ++ sendEventFx st (f chat)) acc
      = acc ++ l.map (fun chat => Effect.frameSent (f chat)) := by
  induction l generalizing acc with
  | nil => simp
  | cons chat rest ih =>
    rw [List.foldl_cons, ih]
    simp [sendEventFx, hopen]

/-! ## Claims -/

/-- C1.  For every `startSession()` call that successfully opens the
transport, the `socket.onopen` handler sends outbound frames in exactly this
order: `sessionStart`, `promptStart`, `contentStart(TEXT, role SYSTEM)`,
`textInput(system prompt)`, `contentEnd`, then — only if chat history is
requested — `contentStart(TEXT)`, one `textInput` per history turn tagged
with that turn's original role, `contentEnd`, and finally
`contentStart(AUDIO)`; no other outbound frame (indeed no other effect) is
interleaved into this setup sequence. -/
theorem setup_sequence_order (cfg : S2SConfig) (pn tcn acn hcn : String)
    (st : S2SState) (hopen : st.socket = some true) :
    (socketOnOpen cfg pn tcn acn hcn st).2 =
      [Effect.frameSent Frame.sessionStart,
       Effect.frameSent (Frame.promptStart pn),
       Effect.frameSent (Frame.contentStart pn tcn "TEXT" (some "SYSTEM") true),
       Effect.frameSent (Frame.textInput pn tcn cfg.systemPrompt none),
       Effect.frameSent (Frame.contentEnd pn tcn)]
      ++ (if cfg.includeChatHistory then
            Effect.frameSent (Frame.contentStart pn hcn "TEXT" (some "SYSTEM") true)
            :: (cfg.chatHistory.map (fun chat =>
                  Effect.frameSent (Frame.textInput pn hcn chat.content (some chat.role)))
                ++ [Effect.frameSent (Frame.contentEnd pn hcn)])
          else [])
      ++ [Effect.frameSent (Frame.contentStart pn acn "AUDIO" (some "USER") true)] := by
  have h0 : ({ st with promptName := some pn, textContentName := some tcn, audioContentName := some acn } : S2SState).socket = some true := hopen
  unfold socketOnOpen
  dsimp only
  rw [foldl_sendEventFx _ h0]
  by_cases hh : cfg.includeChatHistory = true <;>
    simp [sendEventFx, h0, hopen, hh, S2sEvent.sessionStart, S2sEvent.promptStart,
      S2sEvent.contentStartText, S2sEvent.textInput, S2sEvent.contentEnd,
      S2sEvent.contentStartAudio]

/-- Witness for C1: a concrete open-socket state and a configuration with a
two-turn chat history. -/
theorem setup_sequence_order_witness :
    openState.socket = some true
    ∧ (socketOnOpen historyConfig "p" "t" "a" "h" openState).2 =
      [Effect.frameSent Frame.sessionStart,
       Effect.frameSent (Frame.promptStart "p"),
       Effect.frameSent (Frame.contentStart "p" "t" "TEXT" (some "SYSTEM") true),
       Effect.frameSent (Frame.textInput "p" "t" "sys" none),
       Effect.frameSent (Frame.contentEnd "p" "t"),
       Effect.frameSent (Frame.contentStart "p" "h" "TEXT" (some "SYSTEM") true),
       Effect.frameSent (Frame.textInput "p" "h" "hi" (some "USER")),
       Effect.frameSent (Frame.textInput "p" "h" "hello" (some "ASSISTANT")),
       Effect.frameSent (Frame.contentEnd "p" "h"),
       Effect.frameSent (Frame.contentStart "p" "a" "AUDIO" (some "USER") true)] := by
  constructor
  · rfl
  · have h := setup_sequence_order historyConfig "p" "t" "a" "h" openState rfl
    simpa [historyConfig] using h

/-- C6.  Transport close classification: code 1008 fires exactly one
authentication-specific `onError` (and not the generic connection-lost
message); any other code while `sessionStarted` fires exactly the generic
message once; any other code while not started fires nothing. -/
theorem close_code_classification (st : S2SState) (code : Nat) :
    (code = 1008 →
      socketOnClose st code = [Effect.onError "Authentication failed. Please sign in again."])
    ∧ (code ≠ 1008 → st.sessionStarted = true →
      socketOnClose st code = [Effect.onError "WebSocket Disconnected"])
    ∧ (code ≠ 1008 → st.sessionStarted = false →
      socketOnClose st code = []) := by
  refine ⟨fun h => by simp [socketOnClose, h],
    fun h hst => by simp [socketOnClose, h, hst],
    fun h hst => by simp [socketOnClose, h, hst]⟩

/-- Witness for C6: the three branches at concrete close codes and states. -/
theorem close_code_classification_witness :
    socketOnClose initialState 1008
      = [Effect.onError "Authentication failed. Please sign in again."]
    ∧ socketOnClose { initialState with sessionStarted := true } 1006
      = [Effect.onError "WebSocket Disconnected"]
    ∧ socketOnClose initialState 1006 = [] :=
  ⟨(close_code_classification initialState 1008).1 rfl,
   (close_code_classification { initialState with sessionStarted := true } 1006).2.1
     (by decide) rfl,
   (close_code_classification initialState 1006).2.2 (by decide) rfl⟩

/-- C7.  `endSession()` on an active session performs the close sequence
exactly once and in order — `contentEnd(audio)`, `promptEnd`, `sessionEnd`,
then the transport close — and nulls the socket;
a second call (and any call on an ended session) is a complete no-op that
sends nothing and closes nothing. -/
theorem endSession_once (st : S2SState) (p a : String)
    (hs : st.socket = some true) (hp : st.promptName = some p)
    (hpne : p.isEmpty = false) (ha : st.audioContentName = some a)
    (hane : a.isEmpty = false) :
    (endSession st).2 =
      (if st.mediaRecorder && st.sessionStarted then [Effect.mediaRecorderStop] else [])
      ++ ([Effect.frameSent (Frame.contentEnd p a),
           Effect.frameSent (Frame.promptEnd p),
           Effect.frameSent Frame.sessionEnd,
           Effect.socketClose]
      ++ ((if st.audioCleanupSet then [Effect.audioCleanup] else [])
      ++ [Effect.onStateChange false]))
    ∧ (endSession st).1.socket = none
    ∧ endSession (endSession st).1 = ((endSession st).1, []) := by
  have h1 : (endSession st).1.socket = none := by simp [endSession, hs]
  refine ⟨?_, h1, endSession_noop _ h1⟩
  simp [endSession, hs, hp, ha, strTruthy, hpne, hane, sendEventFx,
    S2sEvent.contentEnd, S2sEvent.promptEnd, S2sEvent.sessionEnd,
    List.append_assoc]

/-- Witness for C7: a concrete active session. -/
theorem endSession_once_witness :
    activeState.socket = some true
    ∧ ((endSession activeState).2 =
        (if activeState.mediaRecorder && activeState.sessionStarted
          then [Effect.mediaRecorderStop] else [])
        ++ ([Effect.frameSent (Frame.contentEnd "p" "a"),
             Effect.frameSent (Frame.promptEnd "p"),
             Effect.frameSent Frame.sessionEnd,
             Effect.socketClose]
        ++ ((if activeState.audioCleanupSet then [Effect.audioCleanup] else [])
        ++ [Effect.onStateChange false]))
      ∧ (endSession activeState).1.socket = none
      ∧ endSession (endSession activeState).1 = ((endSession activeState).1, [])) :=
  ⟨rfl, endSession_once activeState "p" "a" rfl rfl rfl rfl rfl⟩

/-- C9.  Every inbound `textOutput` frame with role USER — whatever its
`stopReason` (present or absent) and whatever the session state — produces
exactly one `onTranscription` call and one `onUserMessage` call, each
carrying the frame's content; USER frames are never deduplicated or gated on
stop reason. -/
theorem user_frames_always_forwarded (st : S2SState)
    (content contentId stopReason : Option JVal) :
    ∃ st2,
      handleIncomingMessage st
        (textOutputMsg (some (.jstr "USER")) content contentId stopReason)
      = .ok (st2, [Effect.onTranscription content, Effect.onUserMessage content]) := by
  refine ⟨chatMessagesTextUpdate st (jsToStr contentId) content (some (.jstr "USER"))
    (textOutputMsg (some (.jstr "USER")) content contentId stopReason), ?_⟩
  cases content <;> cases contentId <;> cases stopReason <;>
    simp [handleIncomingMessage, textOutputMsg, optField, jsMember, jfieldGet,
      jsKeys, jsIndexOpt, jsGetProp, isStrVal, bind, Except.bind, pure, Except.pure]

/-- `contentStart` of type AUDIO resets the buffer for its contentId to the
empty string. -/
theorem handle_contentStartAudio (st : S2SState) (cid : String) :
    handleIncomingMessage st (contentStartAudioMsg cid)
      = .ok ({ st with audioResponse := alSet st.audioResponse cid "" }, []) := by
  simp [handleIncomingMessage, contentStartAudioMsg, jsMember_obj, jfieldGet,
    jsKeys, jsIndexOpt, jsGetProp, isStrVal, bind, Except.bind, pure, Except.pure,
    jsToStr, jValToStr]

/-- `audioOutput` appends its chunk to the buffer for its contentId (an
absent buffer counts as empty). -/
theorem handle_audioOutput (st : S2SState) (cid chunk : String) :
    handleIncomingMessage st (audioOutputMsg cid chunk)
      = .ok ({ st with audioResponse := alSet st.audioResponse cid ((alGet st.audioResponse cid).getD "" ++ chunk) }, []) := by
  simp [handleIncomingMessage, audioOutputMsg, jsMember_obj, jfieldGet,
    jsKeys, jsIndexOpt, jsGetProp, bind, Except.bind, pure, Except.pure,
    jsToStr, jValToStr]

/-- A single-message run. -/
theorem processMessages_single (st : S2SState) (m : JVal)
    (r : S2SState × List Effect) (h : handleIncomingMessage st m = .ok r) :
    processMessages st [m] = .ok r := by
  obtain ⟨st1, e1⟩ := r
  simp [processMessages, h]

/-- `contentEnd` of type AUDIO decodes the accumulated buffer into one
playable unit and enqueues it. -/
theorem handle_contentEndAudio (st : S2SState) (cid : String) :
    handleIncomingMessage st (contentEndAudioMsg cid)
      = .ok (audioEnqueue st (base64LPCM (alGet st.audioResponse cid))) := by
  simp [handleIncomingMessage, contentEndAudioMsg, jsMember_obj, jfieldGet,
    jsKeys, jsIndexOpt, jsGetProp, isStrVal, bind, Except.bind, pure, Except.pure,
    jsToStr, jValToStr]

/-- Running a batch of `audioOutput` frames for one contentId appends their
chunks, in arrival order, to the existing buffer; no effects are produced. -/
theorem processMessages_audio_chunks (cid : String) (cs : List String)
    (st : S2SState) (b : String) (hb : alGet st.audioResponse cid = some b) :
    processMessages st (cs.map (audioOutputMsg cid)) =
      .ok ({ st with audioResponse := alSet st.audioResponse cid (b ++ concatAll cs) },
           []) := by
  induction cs generalizing st b with
  | nil =>
    simp [processMessages, concatAll, String.append_empty,
      alSet_self_of_get _ _ _ hb]
  | cons ch rest ih =>
    have hb2 : alGet ({ st with audioResponse := alSet st.audioResponse cid (b ++ ch) } : S2SState).audioResponse cid = some (b ++ ch) := alGet_set_self _ _ _
    rw [List.map_cons]
    simp only [processMessages, handle_audioOutput st cid ch, hb, Option.getD_some,
      ih _ _ hb2]
    simp [alSet_set, String.append_assoc, concatAll]

/-- Running one full audio block — `contentStart(AUDIO)`, the chunks, then
`contentEnd(AUDIO)` — enqueues exactly one unit, decoded from the
concatenation of the chunks in arrival order, and leaves that concatenation
as the buffer contents for the block's contentId. -/
theorem processMessages_audioBlock (st : S2SState) (cid : String) (cs : List String) :
    ∃ st2 fx,
      processMessages st (audioBlockMsgs cid cs) = .ok (st2, fx)
      ∧ fx.filterMap enqueuedUnit = [base64LPCM (some (concatAll cs))]
      ∧ st2.audioResponse = alSet st.audioResponse cid (concatAll cs) := by
  have hsimp : ({ st with audioResponse := alSet (alSet st.audioResponse cid "") cid ("" ++ concatAll cs) } : S2SState) = { st with audioResponse := alSet st.audioResponse cid (concatAll cs) } := by
    rw [alSet_set, String.empty_append]
  have hb0 : alGet ({ st with audioResponse := alSet st.audioResponse cid "" } : S2SState).audioResponse cid = some "" := alGet_set_self _ _ _
  have hchunks := processMessages_audio_chunks cid cs ({ st with audioResponse := alSet st.audioResponse cid "" } : S2SState) "" hb0
  rw [hsimp] at hchunks
  have hmid : alGet ({ st with audioResponse := alSet st.audioResponse cid (concatAll cs) } : S2SState).audioResponse cid = some (concatAll cs) := alGet_set_self _ _ _
  have hend := handle_contentEndAudio ({ st with audioResponse := alSet st.audioResponse cid (concatAll cs) } : S2SState) cid
  rw [hmid] at hend
  have hone := processMessages_single _ _ _ hend
  have happ := processMessages_append _ _
    (audioEnqueue ({ st with audioResponse := alSet st.audioResponse cid (concatAll cs) } : S2SState) (base64LPCM (some (concatAll cs)))).1
    _ _ []
    (audioEnqueue ({ st with audioResponse := alSet st.audioResponse cid (concatAll cs) } : S2SState) (base64LPCM (some (concatAll cs)))).2
    hchunks hone
  refine ⟨(audioEnqueue ({ st with audioResponse := alSet st.audioResponse cid (concatAll cs) } : S2SState) (base64LPCM (some (concatAll cs)))).1,
    (audioEnqueue ({ st with audioResponse := alSet st.audioResponse cid (concatAll cs) } : S2SState) (base64LPCM (some (concatAll cs)))).2,
    ?_, ?_, ?_⟩
  · unfold audioBlockMsgs
    simp only [processMessages, handle_contentStartAudio, happ, List.nil_append]
  · exact audioEnqueue_enq_log _ _
  · rw [audioEnqueue_audioResponse]

/-- C8.  Streamed-audio reassembly: delivering `contentStart(AUDIO)`, the
base64 chunks, then `contentEnd(AUDIO)` for one contentId accumulates
exactly the concatenation of the chunks in arrival order, produces exactly
one playable unit from that buffer and enqueues it; the units of two
distinct completed blocks are enqueued in the arrival order of their
`contentEnd` frames. -/
theorem audio_reassembly (st : S2SState) (cid1 cid2 : String)
    (cs1 cs2 : List String) (hne : cid1 ≠ cid2) :
    ∃ st2 fx,
      processMessages st (audioBlockMsgs cid1 cs1 ++ audioBlockMsgs cid2 cs2)
        = .ok (st2, fx)
      ∧ fx.filterMap enqueuedUnit
          = [base64LPCM (some (concatAll cs1)), base64LPCM (some (concatAll cs2))]
      ∧ alGet st2.audioResponse cid1 = some (concatAll cs1)
      ∧ alGet st2.audioResponse cid2 = some (concatAll cs2) := by
  obtain ⟨stA, fxA, hA, hAe, hAr⟩ := processMessages_audioBlock st cid1 cs1
  obtain ⟨stB, fxB, hB, hBe, hBr⟩ := processMessages_audioBlock stA cid2 cs2
  refine ⟨stB, fxA ++ fxB, processMessages_append _ _ _ _ _ _ _ hA hB, ?_, ?_, ?_⟩
  · simp [List.filterMap_append, hAe, hBe]
  · rw [hBr, alGet_set_ne _ _ _ _ (Ne.symm hne), hAr, alGet_set_self]
  · rw [hBr, alGet_set_self]

/-- Witness for C8: two concrete blocks of two and one chunks. -/
theorem audio_reassembly_witness :
    "id1" ≠ "id2"
    ∧ ∃ st2 fx,
        processMessages initialState
            (audioBlockMsgs "id1" ["a1", "a2"] ++ audioBlockMsgs "id2" ["b1"])
          = .ok (st2, fx)
        ∧ fx.filterMap enqueuedUnit
            = [base64LPCM (some (concatAll ["a1", "a2"])),
               base64LPCM (some (concatAll ["b1"]))]
        ∧ alGet st2.audioResponse "id1" = some (concatAll ["a1", "a2"])
        ∧ alGet st2.audioResponse "id2" = some (concatAll ["b1"]) :=
  ⟨by decide, audio_reassembly initialState "id1" "id2" ["a1", "a2"] ["b1"] (by decide)⟩

/-- How one ASSISTANT `textOutput` frame whose content does not start with a
brace is handled: no barge-in probe, accumulator update, then the
first-50-characters dedup gate. -/
theorem handle_assistant_plain (c cid : String) (hb : strStartsWith c "\x7b" = false)
    (st : S2SState) :
    handleIncomingMessage st (assistantTextMsg c cid) =
      (let stB := chatMessagesTextUpdate st cid (some (.jstr c))
        (some (.jstr "ASSISTANT")) (assistantTextMsg c cid)
       if stB.sentResponses.contains (strTake c 50) then .ok (stB, [])
       else .ok ({ stB with sentResponses := strTake c 50 :: stB.sentResponses },
                 [Effect.onResponse (some (.jstr c))])) := by
  simp [handleIncomingMessage, assistantTextMsg, textOutputMsg, optField, jsMember,
    jfieldGet, jsKeys, jsIndexOpt, jsGetProp, isStrVal, hb, bind, Except.bind,
    pure, Except.pure, jsToStr, jValToStr]

/-- C5.  Within one session (the state right after `startSession()`'s reset),
two ASSISTANT `textOutput` frames whose contents share the same
first-50-character prefix yield exactly one `onResponse` invocation: the
first frame records the fingerprint and fires the callback, the second is
discarded silently. -/
theorem assistant_dedup (st0 : S2SState) (c1 c2 cid1 cid2 : String)
    (hfp : strTake c1 50 = strTake c2 50)
    (hb1 : strStartsWith c1 "\x7b" = false) (hb2 : strStartsWith c2 "\x7b" = false) :
    runEffects (startSessionReset st0)
        [assistantTextMsg c1 cid1, assistantTextMsg c2 cid2]
      = some [Effect.onResponse (some (.jstr c1))] := by
  simp [runEffects, processMessages, handle_assistant_plain c1 cid1 hb1,
    handle_assistant_plain c2 cid2 hb2, chatUpd_sentResponses, startSessionReset,
    hfp, Except.toOption]

/-- How one ASSISTANT `textOutput` frame whose content is brace-prefixed JSON
with `interrupted: true` is handled: `cancelAudio` runs first, and only then
the accumulator update and the dedup-gated dispatch. -/
theorem handle_assistant_interrupt (c cid : String) (evt : JVal)
    (hbrace : strStartsWith c "\x7b" = true)
    (hparse : jsonParse c = some evt)
    (hint : isTrueVal (jsMember evt "interrupted") = true)
    (st : S2SState) :
    handleIncomingMessage st (assistantTextMsg c cid) =
      (let stB := chatMessagesTextUpdate (cancelAudio st).1 cid (some (.jstr c))
        (some (.jstr "ASSISTANT")) (assistantTextMsg c cid)
       if stB.sentResponses.contains (strTake c 50) then .ok (stB, (cancelAudio st).2)
       else .ok ({ stB with sentResponses := strTake c 50 :: stB.sentResponses },
                 (cancelAudio st).2 ++ [Effect.onResponse (some (.jstr c))])) := by
  simp [handleIncomingMessage, assistantTextMsg, textOutputMsg, optField, jsMember_obj,
    jfieldGet, jsKeys, jsIndexOpt, jsGetProp, isStrVal, hbrace, hparse, hint,
    bind, Except.bind, pure, Except.pure, jsToStr, jValToStr]

/-- C2.  An inbound ASSISTANT `textOutput` frame whose content is a JSON
object with `interrupted: true` is a barge-in signal: whatever the playback
state, handling it runs `cancelAudio` first — pausing the active unit and
resetting its position whenever one is live, and emptying the whole queue —
before any further processing of the frame (accumulator update, dedup check,
callback dispatch); none of the later effects touch playback. -/
theorem barge_in_cancels_first (st : S2SState) (evt : JVal) (c cid : String)
    (hbrace : strStartsWith c "\x7b" = true)
    (hparse : jsonParse c = some evt)
    (hint : isTrueVal (jsMember evt "interrupted") = true) :
    ∃ st2 rest,
      handleIncomingMessage st (assistantTextMsg c cid)
        = .ok (st2, (cancelAudio st).2 ++ rest)
      ∧ st2.audioQueue = [] ∧ st2.isPlaying = false
      ∧ rest.all (fun e => !playbackEffect e) = true
      ∧ (cancelAudio st).2 = (if st.audioPlayerRef && st.audioPlayPromise
          then [Effect.pausePlayback, Effect.resetPlaybackPosition] else []) := by
  rw [handle_assistant_interrupt c cid evt hbrace hparse hint st]
  by_cases hdup : (chatMessagesTextUpdate (cancelAudio st).1 cid (some (.jstr c))
      (some (.jstr "ASSISTANT")) (assistantTextMsg c cid)).sentResponses.contains
      (strTake c 50) = true
  · have hmem : strTake c 50 ∈ (chatMessagesTextUpdate (cancelAudio st).1 cid
        (some (.jstr c)) (some (.jstr "ASSISTANT"))
        (assistantTextMsg c cid)).sentResponses := by simpa using hdup
    refine ⟨chatMessagesTextUpdate (cancelAudio st).1 cid (some (.jstr c))
      (some (.jstr "ASSISTANT")) (assistantTextMsg c cid), [], ?_, ?_, ?_,
      by simp, cancelAudio_fx st⟩
    · simp [hmem]
    · simp [chatUpd_audioQueue, cancelAudio_queue]
    · simp [chatUpd_isPlaying, cancelAudio_isPlaying]
  · have hmem : strTake c 50 ∉ (chatMessagesTextUpdate (cancelAudio st).1 cid
        (some (.jstr c)) (some (.jstr "ASSISTANT"))
        (assistantTextMsg c cid)).sentResponses := by simpa using hdup
    refine ⟨{ chatMessagesTextUpdate (cancelAudio st).1 cid (some (.jstr c))
        (some (.jstr "ASSISTANT")) (assistantTextMsg c cid) with
        sentResponses := strTake c 50 :: (chatMessagesTextUpdate (cancelAudio st).1 cid
          (some (.jstr c)) (some (.jstr "ASSISTANT"))
          (assistantTextMsg c cid)).sentResponses },
      [Effect.onResponse (some (.jstr c))], ?_, ?_, ?_,
      by simp [playbackEffect], cancelAudio_fx st⟩
    · simp [hmem]
    · simp [chatUpd_audioQueue, cancelAudio_queue]
    · simp [chatUpd_isPlaying, cancelAudio_isPlaying]

/-- Witness for C2: the concrete marker frame on `bargeState`. -/
theorem barge_in_cancels_first_witness :
    strStartsWith interruptedMarker "\x7b" = true
    ∧ jsonParse interruptedMarker = some (.jobj [("interrupted", .jbool true)])
    ∧ isTrueVal (jsMember (.jobj [("interrupted", .jbool true)]) "interrupted") = true
    ∧ ∃ st2 rest,
        handleIncomingMessage bargeState (assistantTextMsg interruptedMarker "c1")
          = .ok (st2, (cancelAudio bargeState).2 ++ rest)
        ∧ st2.audioQueue = [] ∧ st2.isPlaying = false
        ∧ rest.all (fun e => !playbackEffect e) = true
        ∧ (cancelAudio bargeState).2 =
            (if bargeState.audioPlayerRef && bargeState.audioPlayPromise
             then [Effect.pausePlayback, Effect.resetPlaybackPosition] else []) :=
  ⟨rfl, rfl, rfl,
   barge_in_cancels_first bargeState (.jobj [("interrupted", .jbool true)])
     interruptedMarker "c1" rfl rfl rfl⟩

/-- C10 (implicit).  The barge-in marker frame is not filtered out of the
response stream: after playback is cancelled it still flows through the
normal ASSISTANT dispatch, so the first such frame of a session records the
marker's 50-character prefix in the dedup set and invokes `onResponse` with
the raw JSON marker text. -/
theorem marker_not_filtered (st : S2SState) (cid : String)
    (hnew : st.sentResponses.contains (strTake interruptedMarker 50) = false) :
    ∃ st2,
      handleIncomingMessage st (assistantTextMsg interruptedMarker cid)
        = .ok (st2,
            (cancelAudio st).2 ++ [Effect.onResponse (some (.jstr interruptedMarker))])
      ∧ st2.sentResponses.contains (strTake interruptedMarker 50) = true := by
  rw [handle_assistant_interrupt interruptedMarker cid
    (.jobj [("interrupted", .jbool true)]) rfl rfl rfl st]
  have hmem : strTake interruptedMarker 50 ∉ (chatMessagesTextUpdate (cancelAudio st).1
      cid (some (.jstr interruptedMarker)) (some (.jstr "ASSISTANT"))
      (assistantTextMsg interruptedMarker cid)).sentResponses := by
    rw [chatUpd_sentResponses, cancelAudio_sentResponses]
    simpa using hnew
  refine ⟨{ chatMessagesTextUpdate (cancelAudio st).1 cid
      (some (.jstr interruptedMarker)) (some (.jstr "ASSISTANT"))
      (assistantTextMsg interruptedMarker cid) with
      sentResponses := strTake interruptedMarker 50 ::
        (chatMessagesTextUpdate (cancelAudio st).1 cid
          (some (.jstr interruptedMarker)) (some (.jstr "ASSISTANT"))
          (assistantTextMsg interruptedMarker cid)).sentResponses }, ?_, ?_⟩
  · simp [hmem]
  · simp

/-- Witness for C10: the marker frame on the fresh initial state. -/
theorem marker_not_filtered_witness :
    initialState.sentResponses.contains (strTake interruptedMarker 50) = false
    ∧ ∃ st2,
        handleIncomingMessage initialState (assistantTextMsg interruptedMarker "c1")
          = .ok (st2,
              (cancelAudio initialState).2
                ++ [Effect.onResponse (some (.jstr interruptedMarker))])
        ∧ st2.sentResponses.contains (strTake interruptedMarker 50) = true :=
  ⟨rfl, marker_not_filtered initialState "c1" rfl⟩

/-- C3 counterexample.  The claim that the frame-handling path contains every
exception is false: an ASSISTANT `textOutput` frame whose content is the
single character "{" makes the barge-in probe's `JSON.parse` throw, and
neither `socket.onmessage` nor `handleIncomingMessage` has a try/catch, so
the exception escapes the event-processing path. -/
theorem event_loop_crash_counterexample :
    socketOnMessage initialState
      "\x7b\"event\": \x7b\"textOutput\": \x7b\"role\": \"ASSISTANT\", \"content\": \"\x7b\"\x7d\x7d\x7d"
      = .error (JsError.syntaxError "Unexpected token in JSON at position 1") := rfl

/-- C3 amended.  The frame-handling path does not contain its exceptions:
an ASSISTANT `textOutput` whose content starts with "{" but is not valid
JSON raises an uncaught `SyntaxError` from the barge-in probe's
`JSON.parse`, and a message carrying no event field raises an uncaught
`TypeError` at `Object.keys(message?.event)`; either exception escapes the
handler uncaught, and the remaining processing of that frame is lost.
(Later messages are unaffected: each `onmessage` dispatch is an independent
browser task.) -/
theorem handler_exceptions_propagate (st : S2SState) (c cid : String)
    (hbrace : strStartsWith c "\x7b" = true) (hbad : jsonParse c = none) :
    handleIncomingMessage st (assistantTextMsg c cid)
      = .error (JsError.syntaxError "Unexpected token in JSON at position 1")
    ∧ handleIncomingMessage st (JVal.jobj [])
      = .error (JsError.typeError "Cannot convert undefined to object") := by
  have h1 : handleIncomingMessage st (assistantTextMsg c cid)
      = .error (JsError.syntaxError "Unexpected token in JSON at position 1") := by
    simp [handleIncomingMessage, assistantTextMsg, textOutputMsg, optField,
      jsMember_obj, jfieldGet, jsKeys, jsIndexOpt, jsGetProp, isStrVal, hbrace,
      hbad, bind, Except.bind, pure, Except.pure]
  exact ⟨h1, rfl⟩

/-- Witness for C3's amended theorem: the one-character content "{". -/
theorem handler_exceptions_propagate_witness :
    strStartsWith "\x7b" "\x7b" = true
    ∧ jsonParse "\x7b" = none
    ∧ (handleIncomingMessage initialState (assistantTextMsg "\x7b" "c1")
        = .error (JsError.syntaxError "Unexpected token in JSON at position 1")
      ∧ handleIncomingMessage initialState (JVal.jobj [])
        = .error (JsError.typeError "Cannot convert undefined to object")) :=
  ⟨rfl, rfl, handler_exceptions_propagate initialState "\x7b" "c1" rfl rfl⟩

/-- C4 counterexample.  The claim that a payload frame with an unopened
contentId surfaces an error is false: an `audioOutput` frame for a contentId
with no open buffer is absorbed silently — no error result, no `onError`
effect, and a buffer entry is lazily created from the stray chunk. -/
theorem orphan_audio_silently_absorbed :
    handleIncomingMessage initialState (audioOutputMsg "orphan" "AAAA")
      = .ok ({ initialState with audioResponse := [("orphan", "AAAA")] }, []) := rfl

/-- C4 amended.  Payload frames referencing an unopened contentId are
tolerated silently, never surfaced as an error: an `audioOutput` frame
lazily creates the missing buffer entry holding just the stray chunk (with
no effect, in particular no `onError`); a USER `textOutput` frame skips the
accumulator update (state unchanged) while still performing its normal
callback dispatch. -/
theorem orphan_frames_tolerated (st : S2SState) (cid chunk : String)
    (content : Option JVal)
    (haud : alGet st.audioResponse cid = none)
    (htxt : alGet st.chatMessages cid = none) :
    handleIncomingMessage st (audioOutputMsg cid chunk)
      = .ok ({ st with audioResponse := alSet st.audioResponse cid chunk }, [])
    ∧ handleIncomingMessage st
        (textOutputMsg (some (.jstr "USER")) content (some (.jstr cid)) none)
      = .ok (st, [Effect.onTranscription content, Effect.onUserMessage content]) := by
  constructor
  · simp [handleIncomingMessage, audioOutputMsg, optField, jsMember_obj, jfieldGet,
      jsKeys, jsIndexOpt, jsGetProp, bind, Except.bind, pure, Except.pure,
      jsToStr, jValToStr, haud, String.empty_append]
  · cases content <;>
      simp [handleIncomingMessage, textOutputMsg, optField, jsMember_obj, jfieldGet,
        jsKeys, jsIndexOpt, jsGetProp, isStrVal, bind, Except.bind, pure,
        Except.pure, jsToStr, jValToStr, chatMessagesTextUpdate, htxt]

/-- Witness for C4's amended theorem: concrete orphan frames on the initial
state. -/
theorem orphan_frames_tolerated_witness :
    alGet initialState.audioResponse "orphan" = none
    ∧ alGet initialState.chatMessages "orphan" = none
    ∧ (handleIncomingMessage initialState (audioOutputMsg "orphan" "AAAA")
        = .ok ({ initialState with
            audioResponse := alSet initialState.audioResponse "orphan" "AAAA" }, [])
      ∧ handleIncomingMessage initialState
          (textOutputMsg (some (.jstr "USER")) (some (.jstr "hi"))
            (some (.jstr "orphan")) none)
        = .ok (initialState,
            [Effect.onTranscription (some (.jstr "hi")),
             Effect.onUserMessage (some (.jstr "hi"))])) :=
  ⟨rfl, rfl,
   orphan_frames_tolerated initialState "orphan" "AAAA" (some (.jstr "hi")) rfl rfl⟩

/-- Witness for C5: two concrete frames with identical short contents. -/
theorem assistant_dedup_witness :
    strTake "hello there" 50 = strTake "hello there" 50
    ∧ strStartsWith "hello there" "\x7b" = false
    ∧ runEffects (startSessionReset initialState)
        [assistantTextMsg "hello there" "c1", assistantTextMsg "hello there" "c2"]
      = some [Effect.onResponse (some (.jstr "hello there"))] :=
  ⟨rfl, rfl,
   assistant_dedup initialState "hello there" "hello there" "c1" "c2" rfl rfl rfl⟩

end S2S
